import Mathlib

/-!
Verification development for the experiment-assignment and progress-tracking
state machine of the angr-management experiment harness
(`angrmanagement/experiment/experiment.py`, `angrmanagement/experiment/manager.py`
and their UI callers).

The Python sources are shallowly embedded: pure functions become Lean
functions, the stateful `RandomizedExperiment` object becomes explicit state
passing over an `ExpState` record, Python exceptions become an `Except PyExc`
result, and machine integers are `Nat`/`Int` with explicit `% 2^32` where
32-bit overflow matters (inside MD5).
-/

set_option maxRecDepth 1000000

namespace AngrExp

/-! ## MD5 (the hash used by `hashlib.md5(...).hexdigest()` in manager.py)

The digest codec in `manager.py` calls Python's `hashlib.md5` on the UTF-8
bytes of the cleartext and takes the lowercase hex digest.  We embed MD5
(RFC 1321) directly: messages are lists of bytes (`Nat < 256`), words are
`Nat` reduced mod 2^32.  The round-constant, shift and message-word tables
are packed into single natural numbers (32 or 8 bits per entry, accessed by
shift and mod) so that kernel evaluation of a hash is a short sequence of
arithmetic operations; the packed constants are proved equal to the RFC 1321
tables below, and the whole function is checked against the RFC 1321 test
vectors. -/

/-- Reduce a natural number to a 32-bit word. -/
def w32 (n : Nat) : Nat := n % 4294967296

/-- Bitwise complement within 32 bits. -/
def wnot (x : Nat) : Nat := Nat.xor x 4294967295

/-- Rotate a 32-bit word left by `s` bits. -/
def rotl32 (x s : Nat) : Nat :=
  w32 (Nat.lor (Nat.shiftLeft x s) (Nat.shiftRight x (32 - s)))

/-- The 64 MD5 sine-derived constants (RFC 1321 table T). -/
def md5K : List Nat :=
  [0xd76aa478, 0xe8c7b756, 0x242070db, 0xc1bdceee,
   0xf57c0faf, 0x4787c62a, 0xa8304613, 0xfd469501,
   0x698098d8, 0x8b44f7af, 0xffff5bb1, 0x895cd7be,
   0x6b901122, 0xfd987193, 0xa679438e, 0x49b40821,
   0xf61e2562, 0xc040b340, 0x265e5a51, 0xe9b6c7aa,
   0xd62f105d, 0x02441453, 0xd8a1e681, 0xe7d3fbc8,
   0x21e1cde6, 0xc33707d6, 0xf4d50d87, 0x455a14ed,
   0xa9e3e905, 0xfcefa3f8, 0x676f02d9, 0x8d2a4c8a,
   0xfffa3942, 0x8771f681, 0x6d9d6122, 0xfde5380c,
   0xa4beea44, 0x4bdecfa9, 0xf6bb4b60, 0xbebfbc70,
   0x289b7ec6, 0xeaa127fa, 0xd4ef3085, 0x04881d05,
   0xd9d4d039, 0xe6db99e5, 0x1fa27cf8, 0xc4ac5665,
   0xf4292244, 0x432aff97, 0xab9423a7, 0xfc93a039,
   0x655b59c3, 0x8f0ccc92, 0xffeff47d, 0x85845dd1,
   0x6fa87e4f, 0xfe2ce6e0, 0xa3014314, 0x4e0811a1,
   0xf7537e82, 0xbd3af235, 0x2ad7d2bb, 0xeb86d391]

/-- The MD5 per-round left-rotation amounts. -/
def md5S : List Nat :=
  [7, 12, 17, 22, 7, 12, 17, 22, 7, 12, 17, 22, 7, 12, 17, 22,
   5, 9, 14, 20, 5, 9, 14, 20, 5, 9, 14, 20, 5, 9, 14, 20,
   4, 11, 16, 23, 4, 11, 16, 23, 4, 11, 16, 23, 4, 11, 16, 23,
   6, 10, 15, 21, 6, 10, 15, 21, 6, 10, 15, 21, 6, 10, 15, 21]

/-- Pack a list of 32-bit words into one natural number, 32 bits per entry,
entry 0 in the lowest bits. -/
def packWords : List Nat → Nat
  | [] => 0
  | x :: rest => x + 4294967296 * packWords rest

/-- Pack a list of bytes into one natural number, 8 bits per entry,
entry 0 in the lowest bits. -/
def packBytes : List Nat → Nat
  | [] => 0
  | x :: rest => x + 256 * packBytes rest

/-- The MD5 round constants, packed 32 bits per round. -/
def md5KP : Nat := 29732487059488903905763322469631717769125958164929793412366151172425789674930196726340830178190906514422478323004784040542059979089805965034425678180485316684063688001477928907170542231125766311002278161933077603516964609369933634504338128008372068428496925083401620071902850460572765471884110920228817188125124493281864110345286067398630707046834778669356194165420306791751138704504376786068525417955924144244656571594389466757568292209990884764857563607959736288362486106461621891693005878713718965258586458050969130104168376363736547294730436302092358780808193855733010393122764009565348839319726584518636840068216

/-- The MD5 rotation amounts, packed 8 bits per round. -/
def md5SP : Nat := 1102936058611583724599231945851793179485159992642400647014456291965046039586126844883376118836760634781615794273102553240966458549343168537295689081752583

/-- Running state of the MD5 compression function: four 32-bit words. -/
structure MD5State where
  a : Nat
  b : Nat
  c : Nat
  d : Nat
deriving DecidableEq

/-- The MD5 round mixing function F/G/H/I, selected by the round index. -/
def md5F (i b c d : Nat) : Nat :=
  if i < 16 then Nat.lor (Nat.land b c) (Nat.land (wnot b) d)
  else if i < 32 then Nat.lor (Nat.land d b) (Nat.land (wnot d) c)
  else if i < 48 then Nat.xor b (Nat.xor c d)
  else Nat.xor c (Nat.lor b (wnot d))

/-- The MD5 message-word schedule index for round `i`. -/
def md5G (i : Nat) : Nat :=
  if i < 16 then i
  else if i < 32 then (5 * i + 1) % 16
  else if i < 48 then (3 * i + 5) % 16
  else (7 * i) % 16

/-- One MD5 round; `mP` is the 16-word message block packed 32 bits per word. -/
def md5Step (mP : Nat) (st : MD5State) (i : Nat) : MD5State :=
  let k := w32 (Nat.shiftRight md5KP (32 * i))
  let m := w32 (Nat.shiftRight mP (32 * md5G i))
  let s := Nat.shiftRight md5SP (8 * i) % 256
  let f := w32 (md5F i st.b st.c st.d + st.a + k + m)
  ⟨st.d, w32 (st.b + rotl32 f s), st.b, st.c⟩

/-- Process one 16-word message block: 64 rounds, then the Davies–Meyer add. -/
def md5Block (st : MD5State) (M : List Nat) : MD5State :=
  let mP := packWords M
  let r := (List.range 64).foldl (md5Step mP) st
  ⟨w32 (st.a + r.a), w32 (st.b + r.b), w32 (st.c + r.c), w32 (st.d + r.d)⟩

/-- Serialize a 64-bit value as 8 little-endian bytes. -/
def le64 (n : Nat) : List Nat :=
  [n % 256, n / 256 % 256, n / 65536 % 256, n / 16777216 % 256,
   n / 4294967296 % 256, n / 1099511627776 % 256,
   n / 281474976710656 % 256, n / 72057594037927936 % 256]

/-- Serialize a 32-bit word as 4 little-endian bytes. -/
def le4 (n : Nat) : List Nat :=
  [n % 256, n / 256 % 256, n / 65536 % 256, n / 16777216 % 256]

/-- MD5 padding: a 0x80 byte, zeros to 56 mod 64, then the 64-bit bit length. -/
def md5Pad (msg : List Nat) : List Nat :=
  let l := msg.length
  let z := (120 - (l + 1) % 64) % 64
  msg ++ [128] ++ List.replicate z 0 ++ le64 (8 * l)

/-- Group a byte list into little-endian 32-bit words (4 bytes each). -/
def wordsOf : List Nat → List Nat
  | b0 :: b1 :: b2 :: b3 :: rest =>
      (b0 + 256 * b1 + 65536 * b2 + 16777216 * b3) :: wordsOf rest
  | _ => []

/-- Group a word list into blocks of 16 words. -/
def chunks16 : List Nat → List (List Nat)
  | w0 :: w1 :: w2 :: w3 :: w4 :: w5 :: w6 :: w7 ::
    w8 :: w9 :: w10 :: w11 :: w12 :: w13 :: w14 :: w15 :: rest =>
      [w0, w1, w2, w3, w4, w5, w6, w7, w8, w9, w10, w11, w12, w13, w14, w15]
        :: chunks16 rest
  | _ => []

/-- The fixed MD5 initial state. -/
def md5Init : MD5State := ⟨0x67452301, 0xefcdab89, 0x98badcfe, 0x10325476⟩

/-- Run MD5 over a byte message, producing the final state. -/
def md5Run (msg : List Nat) : MD5State :=
  (chunks16 (wordsOf (md5Pad msg))).foldl md5Block md5Init

/-- The 16 digest bytes of an MD5 state (little-endian serialization). -/
def md5DigestBytes (st : MD5State) : List Nat :=
  le4 st.a ++ le4 st.b ++ le4 st.c ++ le4 st.d

/-- Lowercase hex digit for a value below 16. -/
def hexDigit (n : Nat) : Char :=
  if n < 10 then Char.ofNat (48 + n) else Char.ofNat (87 + n)

/-- Two lowercase hex digits of a byte. -/
def byteHex (b : Nat) : List Char := [hexDigit (b / 16), hexDigit (b % 16)]

/-- Lowercase 32-character hex digest of a byte message, as Python's
`hashlib.md5(msg).hexdigest()` returns it. -/
def md5HexDigest (msg : List Nat) : String :=
  String.mk (((md5DigestBytes (md5Run msg)).map byteHex).flatten)

/-- UTF-8 bytes of a string of ASCII characters: for code points below 128
the UTF-8 encoding is the code point itself, which is the only case the
digest codec ever produces (decimal digits and the letters A/B). -/
def strBytes (s : String) : List Nat := s.data.map Char.toNat

/-! ## Digest codec (`manager.py`, class `RandomizedExperiment`)

Source constants (manager.py lines 29-31):
`STUDY_COUNT = 2`, `CHALLENGE_COUNT = 5`, `GROUP_OPTIONS = ['A', 'B']`. -/

/-- Number of independent studies in the experiment (manager.py). -/
def STUDY_COUNT : Nat := 2

/-- Number of challenges per study (manager.py). -/
def CHALLENGE_COUNT : Nat := 5

/-- Identifiers of groups per study (manager.py). -/
def GROUP_OPTIONS : List Char := ['A', 'B']

/-- Deterministic core of `RandomizedExperiment._generate_digest`
(manager.py lines 55-72), with the three values the source draws at random
(`first_study = random.randint(0, STUDY_COUNT)`,
`group = random.choice(GROUP_OPTIONS)`, and the shuffled
`challenge_order`) made explicit inputs.  The source computes
`cleartext = f"{first_study}{group}{chall_order}"` where
`chall_order = ''.join(challenge_order)` and the entries of
`challenge_order` are the one-character strings `str(c)` for
`c in range(CHALLENGE_COUNT)`; we model those entries as characters.
The result is `md5(cleartext.encode()).hexdigest()`. -/
def generateDigestCore (first_study : Nat) (group : Char)
    (challenge_order : List Char) : String :=
  let chall_order := String.mk challenge_order
  let cleartext := toString first_study ++ String.singleton group ++ chall_order
  md5HexDigest (strBytes cleartext)

/-- Modelled from the spec (section 4.1, Digest Codec), for comparison with
the source's `generateDigestCore`: "Builds a canonical cleartext string by
concatenating, in fixed order: the first-study index as a decimal digit,
then every study's group letter in study-index order, then every
challenge-order digit in slot order; applies a one-way cryptographic hash
(128-bit, hex digest) to the UTF-8 bytes of that string." -/
def encodeSpec (first_study : Nat) (group_letters : List Char)
    (challenge_order : List Char) : String :=
  md5HexDigest (strBytes
    (String.mk (Char.ofNat (48 + first_study) :: (group_letters ++ challenge_order))))

/-- The challenge-order digit characters `str(c)` for `c in
range(CHALLENGE_COUNT)` (manager.py line 65). -/
def digitChars : List Char := (List.range CHALLENGE_COUNT).map (fun c => Char.ofNat (48 + c))

/-- Every combination of one group letter per study, drawn from
`GROUP_OPTIONS` with repetition across studies (`STUDY_COUNT = 2` letters). -/
def letterPairs : List (List Char) :=
  GROUP_OPTIONS.flatMap (fun a => GROUP_OPTIONS.map (fun b => [a, b]))

/-- Modelled from the spec: the Rainbow Table Builder `build()` (section 4.2)
is absent from src (only its caller `validate_digest` appears, in
`experiment_identifier.py`).  Following the spec's words, it enumerates the
full Cartesian space of valid assignments — each candidate first-study value
in the range the digest generator draws from (`random.randint(0,
STUDY_COUNT)`, i.e. 0, 1, 2), each combination of group letters (one per
study, drawn from the fixed 2-letter alphabet, with repetition across
studies), each permutation of the `CHALLENGE_COUNT` challenge-order digits —
and collects the digest of every assignment. -/
def buildSpec : List String :=
  (List.range (STUDY_COUNT + 1)).flatMap (fun f =>
    letterPairs.flatMap (fun gs =>
      digitChars.permutations'.map (fun c => encodeSpec f gs c)))

/-- Modelled from the spec's `build()` with its enumeration adapted to the
digest the source actually generates (`generateDigestCore`, which consumes a
single group letter for the whole experiment rather than one letter per
study): same first-study range and challenge-digit permutations, single
group letters. -/
def buildCode : List String :=
  (List.range (STUDY_COUNT + 1)).flatMap (fun f =>
    GROUP_OPTIONS.flatMap (fun g =>
      digitChars.permutations'.map (fun c => generateDigestCore f g c)))

/-! ## Experiment state machine (`experiment.py`)

`experiment.py` defines `StudyType`, the `StudyGroup` enum family
(`ProximityGroup`, `DataDepGroup`), `Study`, and the stateful
`RandomizedExperiment`.  The object's mutable attributes become the record
`ExpState`; the `.plog` crash-recovery file becomes the `plog` field (`none`
= file absent); Python exceptions become `Except PyExc`; the
`experiment_completed` Qt signal is instrumented as a counter `emitted` of
how many times it has been emitted. -/

/-- Python exceptions the embedded code can raise. -/
inductive PyExc where
  | keyError
  | attributeError
  | typeError
  | valueError
  | indexError
deriving DecidableEq

/-- Enumerates the names of the studies in the experiment
(experiment.py lines 18-21). -/
inductive StudyType where
  | PROXIMITY
  | DATA_DEP
deriving DecidableEq

/-- The study-group enum values of the two `StudyGroup` subclasses
(`ProximityGroup` with values PROXIMITY = 'A', NO_PROXIMITY = 'B';
`DataDepGroup` with values DATA_DEP = 'A', NO_DATA_DEP = 'B';
experiment.py lines 30-42). -/
inductive StudyGroup where
  | PROXIMITY
  | NO_PROXIMITY
  | DATA_DEP
  | NO_DATA_DEP
deriving DecidableEq

/-- The single-character identifier of a study group ('A' = treatment,
'B' = control). -/
def StudyGroup.value : StudyGroup → Char
  | .PROXIMITY => 'A'
  | .NO_PROXIMITY => 'B'
  | .DATA_DEP => 'A'
  | .NO_DATA_DEP => 'B'

/-- Original order of challenges for proximity (experiment.py line 36). -/
def ProximityChallenges : List String := ["quad", "letters", "maze"]

/-- Original order of challenges for data_dep (experiment.py line 45). -/
def DataDepChallenges : List String := ["middle", "follow", "notes"]

/-- A study in the overarching experiment (experiment.py class `Study`). -/
structure Study where
  type_ : StudyType
  group : StudyGroup
  challenges : List String
  curr_chall_idx : Int
deriving DecidableEq

/-- Constructor `Study.__init__` (experiment.py lines 51-55): the cursor starts at -1. -/
def mkStudy (type_ : StudyType) (group : StudyGroup) (challenges : List String) : Study :=
  ⟨type_, group, challenges, -1⟩

/-- Python list subscription `l[i]`: a negative index counts from the end;
`none` models IndexError. -/
def pyGet (l : List String) (i : Int) : Option String :=
  let j := if i < 0 then (l.length : Int) + i else i
  if 0 ≤ j then l.get? j.toNat else none

/-- Method `Study.is_complete` (experiment.py lines 72-74): whether any more
challenges are available, computed as `curr_chall_idx >= len(challenges) - 1`
(Python integer arithmetic, so the subtraction is over ℤ). -/
def Study.is_complete (s : Study) : Bool :=
  decide ((s.challenges.length : Int) - 1 ≤ s.curr_chall_idx)

/-- The `Study.next_chall` property (experiment.py lines 64-70): `None` when
the study is complete, otherwise `challenges[curr_chall_idx + 1]`.  The
source would raise IndexError rather than return `None` on an access below
`-len` (cursor below -1 with the guard passed); `pyGet` returns `none`
there, which never matters on the states the claims quantify over (cursor
at least -1). -/
def Study.next_chall (s : Study) : Option String :=
  if s.is_complete then none
  else pyGet s.challenges (s.curr_chall_idx + 1)

/-- The "next challenge" operation on one study, as the spec's
`next_challenge()` contract describes it and as the cited sources compose
it: read the `Study.next_chall` property (experiment.py lines 64-70) and,
exactly when it yields a challenge, advance the cursor by one — the
per-study effect of `RandomizedExperiment.increment_challenge`
(experiment.py lines 253-254). -/
def Study.nextChallenge (s : Study) : Option String × Study :=
  match s.next_chall with
  | none => (none, s)
  | some c => (some c, { s with curr_chall_idx := s.curr_chall_idx + 1 })

/-- Iterate `Study.nextChallenge` `n` times, collecting the returned values
in order together with the final study state. -/
def runNextN (s : Study) : Nat → List (Option String) × Study
  | 0 => ([], s)
  | n + 1 =>
      let p := s.nextChallenge
      let q := runNextN p.2 n
      (p.1 :: q.1, q.2)

/-- A value read from a field of the pickled crash-recovery log: an integer,
or a string standing in for any non-integer pickled value. -/
inductive PyVal where
  | vint (i : Int)
  | vstr (s : String)
deriving DecidableEq

/-- The pickled contents of the `.plog` crash-recovery file: the dict
`{'chall_idx': ..., 'study_idx': ..., 'studies': ...}` written by
`_update_log_file`, with `none` standing for an absent key (so that
malformed logs are representable).  The `studies` field is either absent or
a well-typed pickled list of `Study` objects; a `studies` value of any
other pickled type is outside the model (it can only raise further
uncaught TypeErrors downstream of recovery). -/
structure RawLog where
  chall_idx : Option PyVal
  study_idx : Option PyVal
  studies : Option (List Study)
deriving DecidableEq

/-- Mutable state of a `RandomizedExperiment` (experiment.py lines 92-162),
together with the bits of the outside world the embedded methods touch:
`plog` is the contents of the `.plog` crash-recovery file (`none` = file
absent), `challenge_dir_exists` is `os.path.exists(CHALLENGE_LOCATION)`,
and `emitted` counts emissions of the `experiment_completed` signal.  The
`_groups` dict is represented by its two entries (`groups_prox`,
`groups_data_dep`), which `_load_digest` always populates before any state
the claims quantify over is reached. -/
structure ExpState where
  studies : List Study
  curr_study_idx : Int
  first_study : Nat
  prox_challenge_order : List Int
  data_dep_challenge_order : List Int
  groups_prox : StudyGroup
  groups_data_dep : StudyGroup
  plog : Option RawLog
  challenge_dir_exists : Bool
  emitted : Nat
deriving DecidableEq

/-- The `studies` property (experiment.py lines 230-236): `None` when the
backing list is empty, the list itself otherwise.  (The property also logs
a warning when the length is neither 0 nor `STUDY_COUNT`; logging is not
modelled.) -/
def studiesProp (st : ExpState) : Option (List Study) :=
  if st.studies.length ≠ 0 then some st.studies else none

/-- The `curr_study` property (experiment.py lines 246-251): the study at
`_curr_study_idx` when that index is in range, `None` otherwise. -/
def currStudy (st : ExpState) : Option Study :=
  if 0 ≤ st.curr_study_idx ∧ st.curr_study_idx < (st.studies.length : Int) then
    st.studies.get? st.curr_study_idx.toNat
  else none

/-- Replace the cursor of the study at position `i`. -/
def setStudyCursor : List Study → Nat → Int → List Study
  | [], _, _ => []
  | s :: rest, 0, v => { s with curr_chall_idx := v } :: rest
  | s :: rest, n + 1, v => s :: setStudyCursor rest n v

/-- Method `RandomizedExperiment.increment_challenge` (experiment.py lines
253-254): `self.curr_study.curr_chall_idx += 1`; AttributeError when
`curr_study` is `None`. -/
def increment_challenge (st : ExpState) : Except PyExc ExpState :=
  match currStudy st with
  | none => .error .attributeError
  | some cur =>
      .ok { st with
              studies := setStudyCursor st.studies st.curr_study_idx.toNat
                (cur.curr_chall_idx + 1) }

/-- Method `RandomizedExperiment.is_complete` (experiment.py lines 306-308):
`self._curr_study_idx < 0 or self._curr_study_idx >= len(self.studies)`.
The `or` short-circuits, and `len` applied to the `studies` property raises
TypeError when the property yields `None` (empty study list). -/
def expIsComplete (st : ExpState) : Except PyExc Bool :=
  if st.curr_study_idx < 0 then .ok true
  else
    match studiesProp st with
    | none => .error .typeError
    | some l => .ok (decide ((l.length : Int) ≤ st.curr_study_idx))

/-- Method `RandomizedExperiment._update_log_file` (experiment.py lines 164-174):
when the challenge directory exists, (re)write the `.plog` file with
`{'chall_idx': curr_chall_idx, 'study_idx': self._curr_study_idx,
'studies': self.studies}` (the `studies` *property*); otherwise only log an
error. -/
def updateLogFile (st : ExpState) (curr_chall_idx : Int) : ExpState :=
  if st.challenge_dir_exists then
    { st with plog := some ⟨some (.vint curr_chall_idx),
                           some (.vint st.curr_study_idx),
                           studiesProp st⟩ }
  else st

/-- Body of the `try:` block of `_recover_from_log_file` (experiment.py
lines 180-184), run when a `.plog` file exists.  Python keeps the side
effects of the statements that ran before an exception, so the body returns
the state as mutated so far together with the exception, if any:
statement 1 `self._studies = log_json.studies` (AttributeError when the key
is absent), statement 2 `self._curr_study_idx = log_json.study_idx`, and
statement 3 `self.curr_study.curr_chall_idx = max(-1, log_json.chall_idx -
1)`, which evaluates its right-hand side first (TypeError on `chall_idx -
1` when `chall_idx` is not a number), then the target `self.curr_study`
(TypeError in the comparison `0 <= self._curr_study_idx` when `study_idx`
was not a number; AttributeError on attribute assignment when `curr_study`
is `None`).  A non-integer `study_idx` cannot be stored in the Int-typed
state field; no behaviour visible to the claims is lost, because the very
next statement raises an uncaught TypeError before that state escapes. -/
def recoverBody (d : RawLog) (st : ExpState) : ExpState × Option PyExc :=
  match d.studies with
  | none => (st, some .attributeError)
  | some l =>
    let st1 := { st with studies := l }
    match d.study_idx with
    | none => (st1, some .attributeError)
    | some iv =>
      let st2 := match iv with
        | .vint i => { st1 with curr_study_idx := i }
        | .vstr _ => st1
      match d.chall_idx with
      | none => (st2, some .attributeError)
      | some cv =>
        match cv with
        | .vstr _ => (st2, some .typeError)
        | .vint c =>
          match iv with
          | .vstr _ => (st2, some .typeError)
          | .vint i =>
            let restored := setStudyCursor st2.studies i.toNat (max (-1) (c - 1))
            if 0 ≤ i ∧ i < (st2.studies.length : Int) then
              ({ st2 with studies := restored }, none)
            else (st2, some .attributeError)

/-- Method `RandomizedExperiment._recover_from_log_file` (experiment.py lines
176-188): nothing happens when no `.plog` file exists; otherwise run the
recovery body, and on KeyError or AttributeError log an error and delete
the file (`os.unlink`).  Any other exception — in particular the TypeError
a wrongly-typed field raises — propagates to the caller. -/
def recoverFromLogFile (st : ExpState) : Except PyExc ExpState :=
  match st.plog with
  | none => .ok st
  | some d =>
    match recoverBody d st with
    | (st', none) => .ok st'
    | (st', some .keyError) => .ok { st' with plog := none }
    | (st', some .attributeError) => .ok { st' with plog := none }
    | (_, some e) => .error e

/-- Python's `os.path.join` for the fixed two-component paths the source builds. -/
def pathJoin (a b : String) : String := a ++ "/" ++ b

/-- Constant `RandomizedExperiment.CHALLENGE_LOCATION` (experiment.py line 82):
`os.path.join(os.path.expanduser('~'), 'Desktop', 'challenges')`.  The
expansion of `~` is machine-dependent and irrelevant to every claim; it is
kept as the literal `~`. -/
def CHALLENGE_LOCATION : String := "~/Desktop/challenges"

/-- The list comprehension `[l[i] for i in order]` over Python ints;
`none` models the IndexError an out-of-range index raises. -/
def selectAll (l : List String) : List Int → Option (List String)
  | [] => some []
  | i :: rest =>
      match pyGet l i, selectAll l rest with
      | some x, some xs => some (x :: xs)
      | _, _ => none

/-- The Python enum call `StudyType(n)`: `none` models the ValueError an
unknown value raises. -/
def studyTypeOfNat (n : Nat) : Option StudyType :=
  if n = 0 then some .PROXIMITY
  else if n = 1 then some .DATA_DEP
  else none

/-- Method `RandomizedExperiment._load_challenges` (experiment.py lines 209-228):
return immediately if studies are already initialized; otherwise build each
study's challenge list by applying the stored digest order to the
fixed-order challenge paths, append the proximity study then the data-dep
study, and swap the two when the first study's type disagrees with
`StudyType(self._first_study)`.  On an error (IndexError from a bad order
index, ValueError from a bad first-study value) the partially appended
state is discarded along with the exception, which no claim observes. -/
def loadChallenges (st : ExpState) : Except PyExc ExpState :=
  if (studiesProp st).isSome then .ok st
  else
    let prox_chall_paths := ProximityChallenges.map (pathJoin CHALLENGE_LOCATION)
    let data_dep_chall_paths := DataDepChallenges.map (pathJoin CHALLENGE_LOCATION)
    match selectAll prox_chall_paths st.prox_challenge_order,
          selectAll data_dep_chall_paths st.data_dep_challenge_order with
    | some prox_challs, some data_dep_challs =>
      let s0 := mkStudy .PROXIMITY st.groups_prox prox_challs
      let s1 := mkStudy .DATA_DEP st.groups_data_dep data_dep_challs
      match studyTypeOfNat st.first_study with
      | none => .error .valueError
      | some ft =>
        if s0.type_ ≠ ft then .ok { st with studies := [s1, s0] }
        else .ok { st with studies := [s0, s1] }
    | _, _ => .error .indexError

/-- The `enabled_views` table (experiment.py lines 105-156): maps the four
declared (study type, study group) pairs to their permitted view
categories; `none` models the KeyError an undeclared pair raises on
subscription. -/
def enabled_views : StudyType → StudyGroup → Option (List String)
  | .PROXIMITY, .PROXIMITY =>
      some ["functions", "disassembly", "hex", "proximity", "strings",
            "patches", "symexec", "states", "interaction", "console", "log"]
  | .PROXIMITY, .NO_PROXIMITY =>
      some ["functions", "disassembly", "hex", "strings",
            "patches", "symexec", "states", "interaction", "console", "log"]
  | .DATA_DEP, .DATA_DEP =>
      some ["functions", "disassembly", "data_dependency", "hex", "strings",
            "patches", "symexec", "states", "interaction", "console", "log"]
  | .DATA_DEP, .NO_DATA_DEP =>
      some ["functions", "disassembly", "hex", "strings",
            "patches", "symexec", "states", "interaction", "console", "log"]
  | _, _ => none

/-- Boolean string-list membership, the `category in frozenset(...)` test. -/
def memStr (x : String) : List String → Bool
  | [] => false
  | y :: rest => if y = x then true else memStr x rest

/-- Method `RandomizedExperiment.allow_view` (experiment.py lines 310-313):
`curr_study is not None and category in self.enabled_views[(type_, group)]`;
the `and` short-circuits, so no table lookup happens when no study is
active. -/
def allow_view (st : ExpState) (category : String) : Except PyExc Bool :=
  match currStudy st with
  | none => .ok false
  | some cur =>
    match enabled_views cur.type_ cur.group with
    | none => .error .keyError
    | some views => .ok (memStr category views)

/-- Tail of the `next_chall` property after the studies-loaded /
completion guards (experiment.py lines 269-287): if the current study is
complete, advance `_curr_study_idx`; when that completes the experiment,
delete the `.plog` file, emit `experiment_completed` and return `None`;
otherwise (or when the current study was not complete) read the new current
study's `next_chall`, write the crash-recovery log with that study's
(pre-increment) cursor, and return the challenge.  The
`workspace.update_usable_views` call is an effect on the excluded UI layer
and touches no core state. -/
def nextChallCore (st : ExpState) : Except PyExc (Option String × ExpState) :=
  match currStudy st with
  | none => .error .attributeError
  | some cur =>
    if cur.is_complete then
      let st2 := { st with curr_study_idx := st.curr_study_idx + 1 }
      match expIsComplete st2 with
      | .error e => .error e
      | .ok true =>
          .ok (none, { st2 with plog := none, emitted := st2.emitted + 1 })
      | .ok false =>
          match currStudy st2 with
          | none => .error .attributeError
          | some cur2 =>
              .ok (cur2.next_chall, updateLogFile st2 cur2.curr_chall_idx)
    else
      .ok (cur.next_chall, updateLogFile st cur.curr_chall_idx)

/-- The `RandomizedExperiment.next_chall` property (experiment.py lines
256-287).  `if not self.studies:` loads the challenges (the studies
property is `None` exactly when the list is empty); `elif
self.is_complete(): return None`; then control falls through to the common
tail `nextChallCore`. -/
def expNextChall (st : ExpState) : Except PyExc (Option String × ExpState) :=
  if (studiesProp st).isNone then
    match loadChallenges st with
    | .error e => .error e
    | .ok st1 => nextChallCore st1
  else
    match expIsComplete st with
    | .error e => .error e
    | .ok true => .ok (none, st)
    | .ok false => nextChallCore st

/-! ## Concrete scenario states

Closed states and traces used by counterexamples, code-bug evaluations and
witnesses below. -/

/-- The completion predicate exactly as the claim states it: cursor greater
than or equal to the length of the challenge sequence, or cursor
negative. -/
def isCompleteClaim (s : Study) : Prop :=
  (s.challenges.length : Int) ≤ s.curr_chall_idx ∨ s.curr_chall_idx < 0

instance (s : Study) : Decidable (isCompleteClaim s) := by
  unfold isCompleteClaim
  infer_instance

/-- Final state of a next-challenge call, or `d` on an exception (never
taken on the concrete traces below, whose conjuncts pin every call to a
successful result). -/
def stOf (e : Except PyExc (Option String × ExpState)) (d : ExpState) : ExpState :=
  match e with
  | .ok p => p.2
  | .error _ => d

/-- Returned challenge of a next-challenge call (`none` on an exception). -/
def outOf (e : Except PyExc (Option String × ExpState)) : Option String :=
  match e with
  | .ok p => p.1
  | .error _ => none

/-- Resulting state of a state-valued call, or `d` on an exception. -/
def stOfInc (e : Except PyExc ExpState) (d : ExpState) : ExpState :=
  match e with
  | .ok s => s
  | .error _ => d

/-- A freshly constructed, digest-loaded experiment with the identity
challenge orders and no crash-recovery log: the state after `__init__`
ran `_load_digest` (both groups populated) with no `.plog` present. -/
def c5Init : ExpState :=
  { studies := [], curr_study_idx := 0, first_study := 0,
    prox_challenge_order := [0, 1, 2], data_dep_challenge_order := [0, 1, 2],
    groups_prox := .PROXIMITY, groups_data_dep := .DATA_DEP,
    plog := none, challenge_dir_exists := true, emitted := 0 }

/-- State after the 1st successful next-challenge call on `c5Init`. -/
def c5St1 : ExpState := stOf (expNextChall c5Init) c5Init

/-- State after the driver's `increment_challenge` following call 1. -/
def c5St2 : ExpState := stOfInc (increment_challenge c5St1) c5St1

/-- State after the 2nd successful next-challenge call. -/
def c5St3 : ExpState := stOf (expNextChall c5St2) c5St2

/-- State after the driver's `increment_challenge` following call 2. -/
def c5St4 : ExpState := stOfInc (increment_challenge c5St3) c5St3

/-- A freshly constructed experiment (same assignment) that finds on disk
the crash-recovery log written during the 2nd successful call. -/
def c5Fresh : ExpState := { c5Init with plog := c5St3.plog }

/-- The recovered state `_recover_from_log_file` produces from that log. -/
def c5Rec : ExpState := stOfInc (recoverFromLogFile c5Fresh) c5Fresh

/-- A RUNNING state whose two studies are both exhausted and whose cursor
sits on the second study, with a crash-recovery log still on disk and 5
prior completion emissions to make the "exactly once" increment visible. -/
def c2S0 : Study := ⟨.PROXIMITY, .PROXIMITY, ["a", "b"], 1⟩

/-- Second (exhausted) study of the C2 witness state. -/
def c2S1 : Study := ⟨.DATA_DEP, .DATA_DEP, ["x"], 0⟩

/-- The C2 witness state itself. -/
def c2State : ExpState :=
  { studies := [c2S0, c2S1], curr_study_idx := 1, first_study := 0,
    prox_challenge_order := [0, 1, 2], data_dep_challenge_order := [0, 1, 2],
    groups_prox := .PROXIMITY, groups_data_dep := .DATA_DEP,
    plog := some ⟨some (.vint 0), some (.vint 1), some [c2S0, c2S1]⟩,
    challenge_dir_exists := true, emitted := 5 }

/-- An assignment-loaded state for the C7 witness: data-dep study first
(`first_study = 1`), proximity order reversed-rotated. -/
def c7State : ExpState :=
  { studies := [], curr_study_idx := 0, first_study := 1,
    prox_challenge_order := [2, 0, 1], data_dep_challenge_order := [0, 1, 2],
    groups_prox := .NO_PROXIMITY, groups_data_dep := .DATA_DEP,
    plog := none, challenge_dir_exists := true, emitted := 0 }

/-- A RUNNING state whose active study is the proximity study in the
NO_PROXIMITY group, for the C8 witness. -/
def c8State : ExpState :=
  { studies := [⟨.PROXIMITY, .NO_PROXIMITY, ["quad"], -1⟩,
                ⟨.DATA_DEP, .DATA_DEP, ["middle"], -1⟩],
    curr_study_idx := 0, first_study := 0,
    prox_challenge_order := [0, 1, 2], data_dep_challenge_order := [0, 1, 2],
    groups_prox := .NO_PROXIMITY, groups_data_dep := .DATA_DEP,
    plog := none, challenge_dir_exists := true, emitted := 0 }

/-- A crash-recovery log whose `chall_idx` field holds a string — well
formed keys, wrong field type. -/
def c9BadLog : RawLog :=
  ⟨some (.vstr "3"), some (.vint 0), some [c2S0, c2S1]⟩

/-- A freshly constructed experiment that finds the wrongly-typed log. -/
def c9BadState : ExpState := { c5Init with plog := some c9BadLog }

/-- A crash-recovery log missing the `chall_idx` key entirely. -/
def c9MissLog : RawLog := ⟨none, some (.vint 0), some [c2S0, c2S1]⟩

/-- A freshly constructed experiment that finds the missing-key log. -/
def c9MissState : ExpState := { c5Init with plog := some c9MissLog }

/-! ## Theorems

First the embedding's own sanity checks (packed MD5 tables against the RFC
1321 lists, RFC 1321 test vectors), then helper lemmas, then one theorem
per claim (with witnesses for theorems that carry hypotheses). -/

/-- The packed round-constant table agrees with the RFC 1321 list. -/
theorem md5KP_eq_packWords : md5KP = packWords md5K := by decide

/-- The packed rotation table agrees with the RFC 1321 list. -/
theorem md5SP_eq_packBytes : md5SP = packBytes md5S := by decide

/-- RFC 1321 test vector: MD5("abc"). -/
theorem md5_check_abc :
    md5HexDigest (strBytes "abc") = "900150983cd24fb0d6963f7d28e17f72" := by
  decide

/-- RFC 1321 test vector: MD5 of the empty message. -/
theorem md5_check_empty :
    md5HexDigest (strBytes "") = "d41d8cd98f00b204e9800998ecf8427e" := by
  decide

/-- RFC 1321 test vector: MD5("message digest"). -/
theorem md5_check_message_digest :
    md5HexDigest (strBytes "message digest") =
      "f96b697d7cb7938d525a2f31aaf161d0" := by
  decide

/-- Boolean membership `memStr` decides list membership. -/
theorem memStr_iff (x : String) (l : List String) : memStr x l = true ↔ x ∈ l := by
  induction l with
  | nil => simp [memStr]
  | cons y rest ih =>
      by_cases h : y = x
      · subst h
        simp [memStr]
      · simp [memStr, h, ih]
        exact fun he => absurd he.symm h

/-- A study whose cursor sits at `k - 1` with `k` challenges still ahead
serves challenge `k` and advances the cursor to `k`. -/
theorem nextChallenge_at (t : StudyType) (g : StudyGroup) (cs : List String)
    (k : Nat) (hk : k < cs.length) :
    Study.nextChallenge ⟨t, g, cs, (k : Int) - 1⟩
      = (cs.get? k, ⟨t, g, cs, (k : Int)⟩) := by
  have hc : (Study.mk t g cs ((k : Int) - 1)).is_complete = false := by
    simp only [Study.is_complete, decide_eq_false_iff_not]
    omega
  have harg : (k : Int) - 1 + 1 = (k : Int) := by omega
  rw [Study.nextChallenge, Study.next_chall, hc]
  simp only [Bool.false_eq_true, if_false, harg, pyGet]
  have hneg : ¬ ((k : Int) < 0) := by omega
  simp only [hneg, if_false, if_pos (Int.natCast_nonneg k), Int.toNat_natCast]
  rw [List.get?_eq_get hk]

/-- A study whose cursor has reached the last challenge serves the end
sentinel and does not move. -/
theorem nextChallenge_done (t : StudyType) (g : StudyGroup) (cs : List String) :
    Study.nextChallenge ⟨t, g, cs, (cs.length : Int) - 1⟩
      = (none, ⟨t, g, cs, (cs.length : Int) - 1⟩) := by
  have hc : (Study.mk t g cs ((cs.length : Int) - 1)).is_complete = true := by
    simp [Study.is_complete]
  rw [Study.nextChallenge, Study.next_chall, hc]
  simp

/-- Running `n` next-challenge operations from cursor `k - 1` serves the
`n` challenges starting at slot `k`, in order, moving the cursor to
`k + n - 1`. -/
theorem runNextN_from (t : StudyType) (g : StudyGroup) (cs : List String) :
    ∀ n k, k + n ≤ cs.length →
      runNextN ⟨t, g, cs, (k : Int) - 1⟩ n
        = (((cs.drop k).take n).map some, ⟨t, g, cs, (k : Int) + n - 1⟩) := by
  intro n
  induction n with
  | zero =>
      intro k _
      simp [runNextN]
  | succ n ih =>
      intro k h
      have hk : k < cs.length := by omega
      rw [runNextN, nextChallenge_at t g cs k hk]
      have hrec := ih (k + 1) (by omega)
      have hcast : ((k + 1 : Nat) : Int) - 1 = (k : Int) := by push_cast; omega
      rw [hcast] at hrec
      rw [hrec]
      rw [List.drop_eq_getElem_cons hk, List.get?_eq_get hk]
      simp only [List.take_succ_cons, List.map_cons]
      have hcur : ((k + 1 : Nat) : Int) + (n : Int) - 1
          = (k : Int) + ((n + 1 : Nat) : Int) - 1 := by
        push_cast
        omega
      rw [hcur]
      rfl

/-- Once the cursor has reached the last challenge, every further
next-challenge operation returns the end sentinel and leaves the study
unchanged. -/
theorem runNextN_after (t : StudyType) (g : StudyGroup) (cs : List String) :
    ∀ m, runNextN ⟨t, g, cs, (cs.length : Int) - 1⟩ m
      = (List.replicate m none, ⟨t, g, cs, (cs.length : Int) - 1⟩) := by
  intro m
  induction m with
  | zero => simp [runNextN]
  | succ m ih => rw [runNextN, nextChallenge_done, ih]; rfl

/-- Splitting a run of next-challenge operations. -/
theorem runNextN_append (a : Nat) : ∀ (s : Study) (b : Nat),
    runNextN s (a + b)
      = ((runNextN s a).1 ++ (runNextN (runNextN s a).2 b).1,
         (runNextN (runNextN s a).2 b).2) := by
  induction a with
  | zero => intro s b; simp [runNextN]
  | succ a ih =>
      intro s b
      have hadd : a + 1 + b = (a + b) + 1 := by omega
      rw [hadd, runNextN, runNextN, ih s.nextChallenge.2 b]
      rfl

/-- C1: for every `Study` constructed with a challenge sequence `cs` of
length N, the first N next-challenge operations return the N challenges
exactly once each, in sequence order (`(cs.take k).map some` after any
`k ≤ N` calls), each call advancing the cursor by one (cursor `k - 1`
after `k` calls, starting from the constructor's `-1`); the (N+1)-th and
every later call returns the end-of-sequence sentinel `none` and leaves
the cursor at `N - 1`, never advancing it past the end. -/
theorem study_sequential_exhaustion (t : StudyType) (g : StudyGroup)
    (cs : List String) (m : Nat) :
    (∀ k, k ≤ cs.length →
        runNextN (mkStudy t g cs) k
          = ((cs.take k).map some, ⟨t, g, cs, (k : Int) - 1⟩))
  ∧ runNextN (mkStudy t g cs) (cs.length + m)
      = (cs.map some ++ List.replicate m none,
         ⟨t, g, cs, (cs.length : Int) - 1⟩) := by
  have hbase : ∀ k, k ≤ cs.length →
      runNextN (mkStudy t g cs) k
        = ((cs.take k).map some, ⟨t, g, cs, (k : Int) - 1⟩) := by
    intro k hk
    have h := runNextN_from t g cs k 0 (by omega)
    simp only [Nat.cast_zero, zero_add, List.drop_zero] at h
    have : ((0 : Int) - 1) = -1 := by omega
    rw [this] at h
    exact h ▸ rfl
  refine ⟨hbase, ?_⟩
  rw [runNextN_append cs.length (mkStudy t g cs) m,
      hbase cs.length le_rfl]
  simp only [List.take_length]
  rw [runNextN_after t g cs m]

/-- Witness for C1 at the proximity challenge list: two calls on a
three-challenge study return the first two challenges with the cursor at
1, and five calls return all three challenges then two sentinels. -/
theorem study_sequential_exhaustion_witness :
    2 ≤ (["quad", "letters", "maze"] : List String).length
  ∧ runNextN (mkStudy .PROXIMITY .PROXIMITY ["quad", "letters", "maze"]) 2
      = ([some "quad", some "letters"],
         ⟨.PROXIMITY, .PROXIMITY, ["quad", "letters", "maze"], 1⟩)
  ∧ runNextN (mkStudy .PROXIMITY .PROXIMITY ["quad", "letters", "maze"]) 5
      = ([some "quad", some "letters", some "maze", none, none],
         ⟨.PROXIMITY, .PROXIMITY, ["quad", "letters", "maze"], 2⟩) := by
  have h := study_sequential_exhaustion StudyType.PROXIMITY StudyGroup.PROXIMITY
    ["quad", "letters", "maze"] 2
  refine ⟨by decide, ?_, ?_⟩
  · have h2 := h.1 2 (by decide)
    simpa using h2
  · simpa using h.2

/-- C6 counterexample: on a one-challenge study, the code's `is_complete`
is already true at cursor 0 (cursor ≥ length − 1) although the claimed
predicate (cursor ≥ length, or cursor negative) is false there; and at the
freshly constructed cursor −1 the code's `is_complete` is false although
the claimed predicate (negative cursor) is true. -/
theorem study_is_complete_counterexample :
    (Study.is_complete ⟨.PROXIMITY, .PROXIMITY, ["quad"], 0⟩ = true
      ∧ ¬ isCompleteClaim ⟨.PROXIMITY, .PROXIMITY, ["quad"], 0⟩)
  ∧ (Study.is_complete ⟨.PROXIMITY, .PROXIMITY, ["quad"], -1⟩ = false
      ∧ isCompleteClaim ⟨.PROXIMITY, .PROXIMITY, ["quad"], -1⟩) := by
  decide

/-- C6 amended: `Study.is_complete` returns true iff the cursor has reached
or passed the last challenge — `cursor + 1 ≥ length`, i.e. `cursor ≥
length − 1` in integer arithmetic; there is no separate negative-cursor
guard. -/
theorem study_is_complete_iff (s : Study) :
    s.is_complete = true ↔ (s.challenges.length : Int) ≤ s.curr_chall_idx + 1 := by
  simp only [Study.is_complete, decide_eq_true_eq]
  omega

/-- C10: `RandomizedExperiment.is_complete` raises TypeError exactly in the
states with no loaded studies and a non-negative `_curr_study_idx` (the
`studies` property yields `None` there and `len` is applied to it); in
every other state it returns a boolean. -/
theorem exp_is_complete_type_error (st : ExpState) :
    expIsComplete st = .error PyExc.typeError
      ↔ (st.studies = [] ∧ 0 ≤ st.curr_study_idx) := by
  unfold expIsComplete studiesProp
  by_cases h : st.curr_study_idx < 0
  · simp only [h, if_true]
    constructor
    · intro hx
      exact absurd hx (by simp)
    · intro hx
      omega
  · simp only [h, if_false]
    rcases hs : st.studies with _ | ⟨s, rest⟩
    · simp
      omega
    · simp

/-- C8: `allow_view(category)` returns false whenever no study is active;
when a study is active and its (type, group) pair is declared in the
`enabled_views` table, it returns true exactly when `category` is a member
of that pair's configured set; in particular the "proximity" category is
disallowed for an active proximity study in the NO_PROXIMITY group. -/
theorem allow_view_gating (st : ExpState) (category : String) :
    (currStudy st = none → allow_view st category = .ok false)
  ∧ (∀ s views, currStudy st = some s →
        enabled_views s.type_ s.group = some views →
        (allow_view st category = .ok true ↔ category ∈ views))
  ∧ (∀ s, currStudy st = some s → s.type_ = StudyType.PROXIMITY →
        s.group = StudyGroup.NO_PROXIMITY →
        allow_view st "proximity" = .ok false) := by
  refine ⟨?_, ?_, ?_⟩
  · intro h
    rw [allow_view, h]
  · intro s views hcs hev
    rw [allow_view, hcs]
    simp only [hev]
    constructor
    · intro h
      have hb : memStr category views = true := by
        by_contra hb
        rw [Bool.not_eq_true] at hb
        rw [hb] at h
        exact absurd (Except.ok.inj h) Bool.false_ne_true
      exact (memStr_iff category views).mp hb
    · intro h
      rw [(memStr_iff category views).mpr h]
  · intro s hcs ht hg
    rw [allow_view, hcs]
    obtain ⟨sty, sgr, scs, sci⟩ := s
    simp only at ht hg
    subst ht
    subst hg
    simp [enabled_views, memStr]

/-- Witness for C8: in a state whose active study is the proximity study
in the NO_PROXIMITY group, "functions" (a member of the configured set) is
allowed and "proximity" is refused. -/
theorem allow_view_gating_witness :
    allow_view c8State "functions" = .ok true
  ∧ allow_view c8State "proximity" = .ok false := by
  constructor
  · exact ((allow_view_gating c8State "functions").2.1 _ _ rfl rfl).mpr (by decide)
  · exact (allow_view_gating c8State "proximity").2.2 _ rfl rfl rfl

/-- C7: on a state with no loaded studies, `_load_challenges` builds each
study's challenge list by applying the stored digest permutation to that
study's canonical fixed-order challenge paths, constructs exactly the two
`Study` objects (proximity first, data-dep second), and swaps the two in
`studies` exactly when the canonical construction order disagrees with
`StudyType(self._first_study)` — so afterwards the study at index 0 has
the assigned first-study type. -/
theorem load_challenges_assignment (st : ExpState)
    (hempty : st.studies = [])
    (prox_challs data_dep_challs : List String)
    (hp : selectAll (ProximityChallenges.map (pathJoin CHALLENGE_LOCATION))
            st.prox_challenge_order = some prox_challs)
    (hd : selectAll (DataDepChallenges.map (pathJoin CHALLENGE_LOCATION))
            st.data_dep_challenge_order = some data_dep_challs)
    (ft : StudyType) (hf : studyTypeOfNat st.first_study = some ft) :
    loadChallenges st =
      .ok { st with studies :=
              if ft = StudyType.PROXIMITY then
                [mkStudy .PROXIMITY st.groups_prox prox_challs,
                 mkStudy .DATA_DEP st.groups_data_dep data_dep_challs]
              else
                [mkStudy .DATA_DEP st.groups_data_dep data_dep_challs,
                 mkStudy .PROXIMITY st.groups_prox prox_challs] }
  ∧ ∀ stR, loadChallenges st = .ok stR →
      stR.studies.length = 2
      ∧ stR.studies.head?.map Study.type_ = some ft
      ∧ stR.studies.map Study.challenges =
          (if ft = StudyType.PROXIMITY then [prox_challs, data_dep_challs]
           else [data_dep_challs, prox_challs]) := by
  have hps : studiesProp st = none := by
    rw [studiesProp, hempty]
    simp
  have hmain : loadChallenges st =
      .ok { st with studies :=
              if ft = StudyType.PROXIMITY then
                [mkStudy .PROXIMITY st.groups_prox prox_challs,
                 mkStudy .DATA_DEP st.groups_data_dep data_dep_challs]
              else
                [mkStudy .DATA_DEP st.groups_data_dep data_dep_challs,
                 mkStudy .PROXIMITY st.groups_prox prox_challs] } := by
    rw [loadChallenges]
    simp only [hps, Option.isSome_none, Bool.false_eq_true, if_false, hp, hd, hf]
    cases ft <;> simp [mkStudy]
  refine ⟨hmain, ?_⟩
  intro stR hR
  rw [hmain] at hR
  have hsR : stR = { st with studies :=
      if ft = StudyType.PROXIMITY then
        [mkStudy .PROXIMITY st.groups_prox prox_challs,
         mkStudy .DATA_DEP st.groups_data_dep data_dep_challs]
      else
        [mkStudy .DATA_DEP st.groups_data_dep data_dep_challs,
         mkStudy .PROXIMITY st.groups_prox prox_challs] } :=
    (Except.ok.inj hR).symm
  subst hsR
  cases ft <;> simp [mkStudy]

/-- Witness for C7: with `first_study = 1` (data-dep first) and the
proximity order (2, 0, 1), loading yields the data-dep study at index 0
and the permuted proximity paths at index 1. -/
theorem load_challenges_assignment_witness :
    loadChallenges c7State =
      .ok { c7State with studies :=
              [mkStudy .DATA_DEP .DATA_DEP
                 ["~/Desktop/challenges/middle", "~/Desktop/challenges/follow",
                  "~/Desktop/challenges/notes"],
               mkStudy .PROXIMITY .NO_PROXIMITY
                 ["~/Desktop/challenges/maze", "~/Desktop/challenges/quad",
                  "~/Desktop/challenges/letters"]] } := by
  have h := (load_challenges_assignment c7State rfl
    ["~/Desktop/challenges/maze", "~/Desktop/challenges/quad",
     "~/Desktop/challenges/letters"]
    ["~/Desktop/challenges/middle", "~/Desktop/challenges/follow",
     "~/Desktop/challenges/notes"]
    (by decide) (by decide) StudyType.DATA_DEP (by decide)).1
  simpa using h

/-- C2: on a RUNNING experiment whose cursor sits on the second of its two
studies with both studies exhausted, the next next-challenge call
transitions to the terminal COMPLETE state exactly once — it advances
`_curr_study_idx` to 2, deletes the crash-recovery log, emits the
experiment-completed notification exactly once, and returns the end
sentinel — and every next-challenge call on a state whose index has
reached 2 returns the end sentinel with the state unchanged: nothing is
re-emitted and the experiment never re-enters a running index. -/
theorem experiment_completion (st : ExpState) (s0 s1 : Study)
    (hs : st.studies = [s0, s1]) (hidx : st.curr_study_idx = 1)
    (h0 : s0.is_complete = true) (h1 : s1.is_complete = true) :
    expNextChall st =
      .ok (none, { st with curr_study_idx := 2, plog := none,
                           emitted := st.emitted + 1 })
  ∧ ∀ st2 : ExpState, st2.studies = [s0, s1] → 2 ≤ st2.curr_study_idx →
      expNextChall st2 = .ok (none, st2) := by
  constructor
  · obtain ⟨studies, idx, fs, po, ddo, gp, gd, plog, cde, em⟩ := st
    simp only at hs hidx
    subst hs
    subst hidx
    rw [expNextChall]
    norm_num [expIsComplete, nextChallCore, currStudy, studiesProp, h1]
  · intro st2 hs2 hge
    obtain ⟨studies, idx, fs, po, ddo, gp, gd, plog, cde, em⟩ := st2
    simp only at hs2 hge
    subst hs2
    rw [expNextChall]
    have h2 : ¬ idx < 0 := by omega
    have hdec : decide ((2 : Int) ≤ idx) = true := decide_eq_true hge
    norm_num [studiesProp, expIsComplete, h2, hdec]

/-- Witness for C2: on the concrete exhausted two-study state `c2State`
(5 prior emissions, a log on disk), the call completes the experiment —
index 2, log deleted, emission count 6, sentinel returned — and the next
call returns the sentinel on the unchanged state. -/
theorem experiment_completion_witness :
    expNextChall c2State =
      .ok (none, { c2State with curr_study_idx := 2, plog := none,
                                emitted := 6 })
  ∧ expNextChall { c2State with curr_study_idx := 2, plog := none,
                                emitted := 6 } =
      .ok (none, { c2State with curr_study_idx := 2, plog := none,
                                emitted := 6 }) := by
  have h := experiment_completion c2State c2S0 c2S1 rfl rfl (by decide) (by decide)
  exact ⟨h.1, h.2 _ rfl (by decide)⟩

/-- C5 (code bug): evaluation of the crash-recovery round trip at a
concrete RUNNING trace.  Two successful next-challenge calls (with the
driver's `increment_challenge` after each) serve quad then letters, and
the original instance's next call would serve maze.  The log written
during the 2nd call records `chall_idx = 0` (the pre-increment cursor of
line 286), yet `_recover_from_log_file` restores the cursor to
`max(-1, chall_idx - 1) = -1`, so the recovered experiment's next call
re-serves quad — not the maze the original would have returned next, and
not even a re-delivery of the in-flight challenge: the write site and the
recovery rewind disagree by one.  The restored cursor is clamped at the
not-started sentinel `-1`. -/
theorem recovery_rewind_evaluation :
    outOf (expNextChall c5Init) = some "~/Desktop/challenges/quad"
  ∧ increment_challenge c5St1 = .ok c5St2
  ∧ outOf (expNextChall c5St2) = some "~/Desktop/challenges/letters"
  ∧ increment_challenge c5St3 = .ok c5St4
  ∧ outOf (expNextChall c5St4) = some "~/Desktop/challenges/maze"
  ∧ c5St3.plog.map RawLog.chall_idx = some (some (PyVal.vint 0))
  ∧ recoverFromLogFile c5Fresh = .ok c5Rec
  ∧ c5Rec.studies.map Study.curr_chall_idx = [-1, -1]
  ∧ outOf (expNextChall c5Rec) = some "~/Desktop/challenges/quad"
  ∧ outOf (expNextChall c5Rec) ≠ outOf (expNextChall c5St4) := by
  refine ⟨rfl, rfl, rfl, rfl, rfl, rfl, rfl, rfl, rfl, by decide⟩

/-- C9 (code bug): a crash-recovery log whose `chall_idx` holds a string —
present but with a wrong field type — makes `_recover_from_log_file`
propagate a TypeError (the `except` clause catches only KeyError and
AttributeError), instead of deleting the file and proceeding fresh; a log
with a missing key, by contrast, is caught and the file deleted. -/
theorem recover_corrupt_log_evaluation :
    recoverFromLogFile c9BadState = .error PyExc.typeError
  ∧ recoverFromLogFile c9MissState =
      .ok { c9MissState with studies := [c2S0, c2S1], plog := none } := by
  exact ⟨rfl, rfl⟩

/-- C3 counterexample: at the concrete assignment with first-study index 1,
one group letter per study, and challenge order 54231, the digest the
source's codec produces (from the single group letter it actually consumes)
differs from the digest of the claimed cleartext that contains every
study's group letter. -/
theorem digest_two_letter_counterexample :
    generateDigestCore 1 'A' ['5', '4', '2', '3', '1']
      ≠ encodeSpec 1 ['A', 'A'] ['5', '4', '2', '3', '1']
  ∧ generateDigestCore 1 'B' ['5', '4', '2', '3', '1']
      ≠ encodeSpec 1 ['B', 'B'] ['5', '4', '2', '3', '1'] := by
  decide

/-- C3 amended: for a first-study index below 10, the codec returns the
MD5 hex digest of the UTF-8 bytes of the cleartext that concatenates the
first-study decimal digit, a SINGLE group letter (one for the whole
experiment, not one per study), then every challenge-order digit in slot
order — i.e. it agrees with the spec's cleartext construction applied to a
one-letter group sequence. -/
theorem generate_digest_single_letter (f : Nat) (hf : f < 10) (g : Char)
    (c : List Char) :
    generateDigestCore f g c = encodeSpec f [g] c := by
  have hdigit : (toString f).data = [Char.ofNat (48 + f)] := by
    interval_cases f <;> decide
  simp only [generateDigestCore, encodeSpec]
  congr 1
  simp only [strBytes]
  congr 1
  rw [String.data_append, String.data_append, hdigit]
  simp

/-- Witness for the amended C3 at the assignment of the source's docstring
example (second study first, group A, order 54231). -/
theorem generate_digest_single_letter_witness :
    1 < 10
  ∧ generateDigestCore 1 'A' ['5', '4', '2', '3', '1']
      = encodeSpec 1 ['A'] ['5', '4', '2', '3', '1'] :=
  ⟨by decide, generate_digest_single_letter 1 (by decide) 'A' ['5', '4', '2', '3', '1']⟩

set_option maxHeartbeats 4000000 in
/-- Block of the C4 non-membership check: no spec digest with first-study 0
and letters AA matches the code's digest for (0, 'A', 01234). -/
theorem c4_block_0_AA : ∀ c ∈ digitChars.permutations',
    encodeSpec 0 ['A', 'A'] c ≠ generateDigestCore 0 'A' ['0', '1', '2', '3', '4'] := by
  decide

set_option maxHeartbeats 4000000 in
/-- Block of the C4 non-membership check: first-study 0, letters AB. -/
theorem c4_block_0_AB : ∀ c ∈ digitChars.permutations',
    encodeSpec 0 ['A', 'B'] c ≠ generateDigestCore 0 'A' ['0', '1', '2', '3', '4'] := by
  decide

set_option maxHeartbeats 4000000 in
/-- Block of the C4 non-membership check: first-study 0, letters BA. -/
theorem c4_block_0_BA : ∀ c ∈ digitChars.permutations',
    encodeSpec 0 ['B', 'A'] c ≠ generateDigestCore 0 'A' ['0', '1', '2', '3', '4'] := by
  decide

set_option maxHeartbeats 4000000 in
/-- Block of the C4 non-membership check: first-study 0, letters BB. -/
theorem c4_block_0_BB : ∀ c ∈ digitChars.permutations',
    encodeSpec 0 ['B', 'B'] c ≠ generateDigestCore 0 'A' ['0', '1', '2', '3', '4'] := by
  decide

set_option maxHeartbeats 4000000 in
/-- Block of the C4 non-membership check: first-study 1, letters AA. -/
theorem c4_block_1_AA : ∀ c ∈ digitChars.permutations',
    encodeSpec 1 ['A', 'A'] c ≠ generateDigestCore 0 'A' ['0', '1', '2', '3', '4'] := by
  decide

set_option maxHeartbeats 4000000 in
/-- Block of the C4 non-membership check: first-study 1, letters AB. -/
theorem c4_block_1_AB : ∀ c ∈ digitChars.permutations',
    encodeSpec 1 ['A', 'B'] c ≠ generateDigestCore 0 'A' ['0', '1', '2', '3', '4'] := by
  decide

set_option maxHeartbeats 4000000 in
/-- Block of the C4 non-membership check: first-study 1, letters BA. -/
theorem c4_block_1_BA : ∀ c ∈ digitChars.permutations',
    encodeSpec 1 ['B', 'A'] c ≠ generateDigestCore 0 'A' ['0', '1', '2', '3', '4'] := by
  decide

set_option maxHeartbeats 4000000 in
/-- Block of the C4 non-membership check: first-study 1, letters BB. -/
theorem c4_block_1_BB : ∀ c ∈ digitChars.permutations',
    encodeSpec 1 ['B', 'B'] c ≠ generateDigestCore 0 'A' ['0', '1', '2', '3', '4'] := by
  decide

set_option maxHeartbeats 4000000 in
/-- Block of the C4 non-membership check: first-study 2, letters AA. -/
theorem c4_block_2_AA : ∀ c ∈ digitChars.permutations',
    encodeSpec 2 ['A', 'A'] c ≠ generateDigestCore 0 'A' ['0', '1', '2', '3', '4'] := by
  decide

set_option maxHeartbeats 4000000 in
/-- Block of the C4 non-membership check: first-study 2, letters AB. -/
theorem c4_block_2_AB : ∀ c ∈ digitChars.permutations',
    encodeSpec 2 ['A', 'B'] c ≠ generateDigestCore 0 'A' ['0', '1', '2', '3', '4'] := by
  decide

set_option maxHeartbeats 4000000 in
/-- Block of the C4 non-membership check: first-study 2, letters BA. -/
theorem c4_block_2_BA : ∀ c ∈ digitChars.permutations',
    encodeSpec 2 ['B', 'A'] c ≠ generateDigestCore 0 'A' ['0', '1', '2', '3', '4'] := by
  decide

set_option maxHeartbeats 4000000 in
/-- Block of the C4 non-membership check: first-study 2, letters BB. -/
theorem c4_block_2_BB : ∀ c ∈ digitChars.permutations',
    encodeSpec 2 ['B', 'B'] c ≠ generateDigestCore 0 'A' ['0', '1', '2', '3', '4'] := by
  decide

/-- C4 counterexample: the digest the source's codec produces for the
concrete valid assignment (first-study 0, group letter 'A' — letters AA
per study under the claim's reading — challenge order 01234) is NOT a
member of the rainbow table built per the spec's `build()` (which hashes
one group letter per study), so `validate_digest` by membership in that
table rejects a legitimately generated digest. -/
theorem rainbow_exhaustive_counterexample :
    generateDigestCore 0 'A' ['0', '1', '2', '3', '4'] ∉ buildSpec := by
  intro h
  rw [buildSpec, List.mem_flatMap] at h
  obtain ⟨f, hf, h⟩ := h
  rw [List.mem_flatMap] at h
  obtain ⟨gs, hgs, h⟩ := h
  rw [List.mem_map] at h
  obtain ⟨c, hc, heq⟩ := h
  rw [List.mem_range] at hf
  norm_num [STUDY_COUNT] at hf
  have hgs4 : gs = ['A', 'A'] ∨ gs = ['A', 'B'] ∨ gs = ['B', 'A'] ∨ gs = ['B', 'B'] := by
    simpa [letterPairs, GROUP_OPTIONS] using hgs
  interval_cases f <;> rcases hgs4 with rfl | rfl | rfl | rfl
  · exact absurd heq (c4_block_0_AA c hc)
  · exact absurd heq (c4_block_0_AB c hc)
  · exact absurd heq (c4_block_0_BA c hc)
  · exact absurd heq (c4_block_0_BB c hc)
  · exact absurd heq (c4_block_1_AA c hc)
  · exact absurd heq (c4_block_1_AB c hc)
  · exact absurd heq (c4_block_1_BA c hc)
  · exact absurd heq (c4_block_1_BB c hc)
  · exact absurd heq (c4_block_2_AA c hc)
  · exact absurd heq (c4_block_2_AB c hc)
  · exact absurd heq (c4_block_2_BA c hc)
  · exact absurd heq (c4_block_2_BB c hc)

/-- C4 amended: every digest the source's codec produces over an
assignment in its actual valid ranges — a first-study value in the range
`random.randint(0, STUDY_COUNT)` draws from, a single group letter from
the two-letter alphabet, and any permutation of the CHALLENGE_COUNT
challenge-order digits — is a member of the rainbow table enumerating that
same single-letter assignment space, so membership-based validation
accepts it. -/
theorem rainbow_membership (f : Nat) (hf : f ≤ STUDY_COUNT) (g : Char)
    (hg : g ∈ GROUP_OPTIONS) (c : List Char) (hc : List.Perm c digitChars) :
    generateDigestCore f g c ∈ buildCode := by
  rw [buildCode, List.mem_flatMap]
  refine ⟨f, List.mem_range.mpr (by omega), ?_⟩
  rw [List.mem_flatMap]
  exact ⟨g, hg, List.mem_map.mpr ⟨c, List.mem_permutations'.mpr hc, rfl⟩⟩

/-- Witness for the amended C4: the digest of first-study 0, letter A,
challenge order 01234 sits in the single-letter rainbow table. -/
theorem rainbow_membership_witness :
    0 ≤ STUDY_COUNT
  ∧ 'A' ∈ GROUP_OPTIONS
  ∧ List.Perm ['0', '1', '2', '3', '4'] digitChars
  ∧ generateDigestCore 0 'A' ['0', '1', '2', '3', '4'] ∈ buildCode :=
  ⟨by decide, by decide, by decide,
   rainbow_membership 0 (by decide) 'A' (by decide) ['0', '1', '2', '3', '4'] (by decide)⟩

end AngrExp
